import Mathlib

/-!
Verification of the graph-database service core
(`services/database/database/`): identifier validation, connection
lifecycle, entity codec, node/relationship CRUD routes, traversal and
path-finding routes.  Python route handlers are shallowly embedded as
pure Lean functions over an explicit graph state; the Neo4j backend's
execution of each concrete Cypher statement family is modelled by a
Lean interpreter of that statement's documented semantics.
-/

namespace DBService

/-- JSON-compatible scalar values as delivered by Flask's `request.get_json()`.
Python booleans are a distinct constructor because `bool` is a subclass of
`int` in Python, which matters for `isinstance(x, int)` checks. -/
inductive JValue where
  | jnull
  | jbool (b : Bool)
  | jint (n : Int)
  | jstr (s : String)
  deriving DecidableEq, Repr

/-- Characters accepted by the first character class of
`IDENTIFIER_PATTERN = re.compile(r'^[a-zA-Z_][a-zA-Z0-9_]*$')`
in `validation.py`. -/
def isIdentStart (c : Char) : Bool :=
  ('a' ≤ c && c ≤ 'z') || ('A' ≤ c && c ≤ 'Z') || c = '_'

/-- Characters accepted by the repeated character class of
`IDENTIFIER_PATTERN` in `validation.py`. -/
def isIdentChar (c : Char) : Bool :=
  isIdentStart c || ('0' ≤ c && c ≤ '9')

/-- The language of the regular expression `^[a-zA-Z_][a-zA-Z0-9_]*$` read
mathematically as a full match: a non-empty string whose first character is
a letter or underscore and whose remaining characters are alphanumerics or
underscores.  This is the grammar as the spec states it. -/
def identMatchCore (s : String) : Bool :=
  match s.data with
  | [] => false
  | c :: cs => isIdentStart c && cs.all isIdentChar

/-- Embedding of Python's `IDENTIFIER_PATTERN.match(value)` being truthy.
Python's `$` anchor (without `re.MULTILINE`) matches at the end of the
string AND immediately before a newline that ends the string, so
`re.match` also accepts a grammar match followed by one trailing
newline (e.g. `'abc\n'`). -/
def pyPatternMatch (s : String) : Bool :=
  identMatchCore s ||
    (s.data.getLast? = some '\n' && identMatchCore (String.mk s.data.dropLast))

/-- `validate_identifier` from `validation.py`: empty check, regex check,
then length check; returns `(is_valid, error_message)`.  `not value` is
Python string falsiness, i.e. emptiness; `len(value)` counts characters. -/
def validate_identifier (value : String) (name : String) : Bool × Option String :=
  if value = "" then
    (false, some (name ++ " cannot be empty"))
  else if !pyPatternMatch value then
    (false, some (name ++ " must contain only alphanumeric characters and underscores, and start with a letter"))
  else if value.length > 65535 then
    (false, some (name ++ " is too long (max 65535 characters)"))
  else
    (true, none)

/-- `validate_identifiers` from `validation.py`: applies
`validate_identifier` to each element, short-circuiting on the first
failure. -/
def validate_identifiers (values : List String) (name : String) : Bool × Option String :=
  match values with
  | [] => (true, none)
  | v :: vs =>
    let r := validate_identifier v name
    if r.1 then validate_identifiers vs name else r

/-- A backend node object as exposed by the Neo4j driver: an opaque
`element_id`, a label collection, and a property map (modelled as an
association list with JSON-compatible values).  Neo4j guarantees element
ids are unique across the graph's nodes. -/
structure GNode where
  element_id : String
  labels : List String
  properties : List (String × JValue)
  deriving DecidableEq, Repr

/-- A backend relationship object as exposed by the Neo4j driver.  The
driver object carries `start_node` / `end_node` objects; only their
element ids are relevant to the codec, so the embedding stores those
ids directly. -/
structure GRel where
  element_id : String
  type : String
  startId : String
  endId : String
  properties : List (String × JValue)
  deriving DecidableEq, Repr

/-- The state of the backend graph database, plus a counter supplying the
fresh opaque element ids Neo4j assigns to created entities. -/
structure Graph where
  nodes : List GNode
  rels : List GRel
  nextId : Nat
  deriving DecidableEq, Repr

/-- The record shape produced by `node_to_dict` in `db.py`:
`{"id": ..., "labels": [...], "properties": {...}}`. -/
structure NodeRec where
  id : String
  labels : List String
  properties : List (String × JValue)
  deriving DecidableEq, Repr

/-- The record shape produced by `relationship_to_dict` in `db.py`:
`{"id", "type", "start_node_id", "end_node_id", "properties"}`. -/
structure RelRec where
  id : String
  type : String
  start_node_id : String
  end_node_id : String
  properties : List (String × JValue)
  deriving DecidableEq, Repr

/-- `node_to_dict` from `db.py`. -/
def node_to_dict (n : GNode) : NodeRec :=
  { id := n.element_id, labels := n.labels, properties := n.properties }

/-- `relationship_to_dict` from `db.py`; `relationship.start_node.element_id`
and `relationship.end_node.element_id` are the stored endpoint ids. -/
def relationship_to_dict (r : GRel) : RelRec :=
  { id := r.element_id, type := r.type, start_node_id := r.startId,
    end_node_id := r.endId, properties := r.properties }

/-- A value inside a result row of an arbitrary Cypher query.  The Python
code discriminates by capability presence (`hasattr(value, 'labels')` for
nodes, `hasattr(value, 'type') and hasattr(value, 'start_node')` for
relationships, anything else raw); driver node objects are exactly the
values exposing `labels`, and driver relationship objects exactly those
exposing `type` and `start_node`, so the constructors coincide with the
`hasattr` classification. -/
inductive NeoValue where
  | nodeVal (n : GNode)
  | relVal (r : GRel)
  | rawVal (v : JValue)
  deriving DecidableEq, Repr

/-- A mapped value in the JSON response of the raw-query endpoint. -/
inductive RowVal where
  | nodeRec (n : NodeRec)
  | relRec (r : RelRec)
  | raw (v : JValue)
  deriving DecidableEq, Repr

/-- JSON response bodies produced by the route handlers. -/
inductive Body where
  | empty
  | err (msg : String)
  | errWithDetail (err : String) (message : String)
  | nodeRec (n : NodeRec)
  | relRec (r : RelRec)
  | nodeList (ns : List NodeRec) (count : Nat)
  | relList (rs : List RelRec) (count : Nat)
  | rows (rs : List (List (String × RowVal))) (count : Nat)
  | message (msg : String)
  | pathRec (ns : List NodeRec) (rs : List RelRec) (length : Nat)
  deriving DecidableEq, Repr

/-- Outcome of one embedded route handler: HTTP status, response body,
the backend graph state after the call, and the list of Cypher statement
texts sent to the backend (in order). -/
structure RouteResult where
  status : Nat
  body : Body
  graph : Graph
  executed : List String
  deriving DecidableEq, Repr

/-! ### Connection lifecycle (`db.py` and `app.py`)

`Neo4jConnection` holds `_driver: Driver | None`.  The embedding
identifies each constructed driver handle by its construction ordinal
and counts constructions. -/

/-- State of the module-level `neo4j_conn` singleton: the current driver
handle (by construction ordinal) if any, and how many times
`GraphDatabase.driver(...)` has been called so far in this process. -/
structure ConnState where
  driver : Option Nat
  built : Nat
  deriving DecidableEq, Repr

/-- The `neo4j_conn` singleton as initialised at import: no driver yet. -/
def initConn : ConnState := { driver := none, built := 0 }

/-- `Neo4jConnection.get_driver` from `db.py`: construct the driver on
first use, afterwards return the stored one.  Returns the handle handed
to the caller together with the new state. -/
def get_driver (s : ConnState) : Nat × ConnState :=
  match s.driver with
  | some d => (d, s)
  | none => (s.built, { driver := some s.built, built := s.built + 1 })

/-- `Neo4jConnection.close` / `close_db` from `db.py`: closes the driver
if present and resets the stored handle to `None`. -/
def close_db (s : ConnState) : ConnState := { s with driver := none }

/-- One request processed by the Flask app in `app.py`.  The handler body
calls `get_db()` (hence `get_driver`); when the request ends Flask pops
the application context it pushed for the request, and
`@app.teardown_appcontext` (lines 31–34 of `app.py`) makes Flask invoke
`teardown_db`, which calls `close_db()`, at every such pop — i.e. after
every request, not only at process exit. -/
def handleRequest (s : ConnState) : ConnState :=
  close_db (get_driver s).2

/-- `n` consecutive requests processed by the app. -/
def handleRequests : Nat → ConnState → ConnState
  | 0, s => s
  | n + 1, s => handleRequests n (handleRequest s)

/-! ### Request shapes and Python-semantics helpers -/

/-- Python falsiness of an optional string field fetched with
`data.get(...)`: falsy when the key is absent (`None`) or the value is
the empty string. -/
def pyFalsyOptStr : Option String → Bool
  | none => true
  | some s => s = ""

/-- Python's `isinstance(x, int)` on a JSON-decoded value: true for
integers AND booleans, because `bool` is a subclass of `int`. -/
def pyIsInstInt : JValue → Bool
  | .jint _ => true
  | .jbool _ => true
  | _ => false

/-- Integer value of a Python `int` instance (booleans compare as 1/0). -/
def pyIntVal : JValue → Int
  | .jint n => n
  | .jbool b => if b then 1 else 0
  | _ => 0

/-- Python `str(x)` / f-string rendering of a JSON-decoded value. -/
def pyStr : JValue → String
  | .jnull => "None"
  | .jbool true => "True"
  | .jbool false => "False"
  | .jint n => toString n
  | .jstr s => s

/-- Body of `POST /nodes`; `data.get("labels", [])` and
`data.get("properties", {})` default absent keys. -/
structure CreateNodeRequest where
  labels : List String := []
  properties : List (String × JValue) := []
  deriving DecidableEq, Repr

/-- Body of `PUT /nodes/<id>`; `properties = none` models the
`"properties"` key being absent. -/
structure UpdateNodeRequest where
  properties : Option (List (String × JValue)) := none
  deriving DecidableEq, Repr

/-- Body of `POST /relationships`. -/
structure CreateRelRequest where
  from_node : Option String := none
  to_node : Option String := none
  type : Option String := none
  properties : List (String × JValue) := []
  deriving DecidableEq, Repr

/-- Body of `POST /query/cypher`. -/
structure CypherRequest where
  query : Option String := none
  parameters : List (String × JValue) := []
  deriving DecidableEq, Repr

/-- Body of `POST /query/path`. -/
structure FindPathRequest where
  from_node : Option String := none
  to_node : Option String := none
  max_depth : Option JValue := none
  relationship_types : Option (List String) := none
  deriving DecidableEq, Repr

/-! ### Cypher statement semantics over the graph state

Each route sends one fixed statement shape to Neo4j; the embedding
interprets that statement's documented effect directly on `Graph`.
Neo4j guarantees element-id uniqueness, and every relationship's
endpoints reference existing nodes (referential integrity enforced by
`DETACH DELETE` and creation-time matching). -/

/-- Whether a node with the given element id exists
(`MATCH (n) WHERE elementId(n) = $id` produces a row). -/
def hasNodeId (g : Graph) (i : String) : Bool :=
  g.nodes.any (fun n => n.element_id = i)

/-- Fresh opaque element id assigned by the backend to a created entity. -/
def freshId (g : Graph) : String := "elem:" ++ toString g.nextId

/-- Whether an entry of the update map survives Cypher's `+=`: an entry
whose value is `null` unsets its key instead of writing it. -/
def keepNonNull (kv : String × JValue) : Bool :=
  match kv.2 with | .jnull => false | _ => true

/-- Semantics of Cypher `SET n += $properties` on a property map: every
key of the update map is written with its new value, a key whose new
value is `null` is removed, and every other existing key is kept. -/
def mergeProps (old p : List (String × JValue)) : List (String × JValue) :=
  old.filter (fun kv => !(p.any (fun q => q.1 = kv.1))) ++ p.filter keepNonNull

/-! ### Node routes (`routes/nodes.py`) -/

/-- `create_node` (`POST /nodes`).  `exc` injects an unexpected
(non-`Neo4jError`) exception raised inside the `try` block, carrying its
`str(e)` text; `none` is the normal path.  The `CREATE ... RETURN n`
statement always returns the created row, so the handler's
`record is None` fallback (500 "Failed to create node") is unreachable. -/
def create_node (g : Graph) (data : Option CreateNodeRequest) (exc : Option String) : RouteResult :=
  match data with
  | none => { status := 400, body := .err "No data provided", graph := g, executed := [] }
  | some d =>
    if d.labels = [] then
      { status := 400, body := .err "At least one label is required", graph := g, executed := [] }
    else
      let v := validate_identifiers d.labels "label"
      if !v.1 then
        { status := 400, body := .err (v.2.getD ""), graph := g, executed := [] }
      else
        match exc with
        | some _ =>
          { status := 500, body := .err "Internal server error", graph := g, executed := [] }
        | none =>
          let labels_str := String.intercalate ":" d.labels
          let query := "CREATE (n:" ++ labels_str ++ " $properties) RETURN n"
          let node : GNode :=
            { element_id := freshId g, labels := d.labels, properties := d.properties }
          { status := 201, body := .nodeRec (node_to_dict node),
            graph := { g with nodes := g.nodes ++ [node], nextId := g.nextId + 1 },
            executed := [query] }

/-- `update_node` (`PUT /nodes/<node_id>`): `SET n += $properties` merges
the supplied properties into every matched node (at most one, element
ids being unique) and returns the updated node, or 404 when no node
matches. -/
def update_node (g : Graph) (node_id : String) (data : Option UpdateNodeRequest) : RouteResult :=
  match data with
  | none => { status := 400, body := .err "No properties provided", graph := g, executed := [] }
  | some d =>
    match d.properties with
    | none => { status := 400, body := .err "No properties provided", graph := g, executed := [] }
    | some properties =>
      let query := "MATCH (n) WHERE elementId(n) = $node_id SET n += $properties RETURN n"
      match g.nodes.find? (fun n => n.element_id = node_id) with
      | some n =>
        let merged : GNode := { n with properties := mergeProps n.properties properties }
        { status := 200, body := .nodeRec (node_to_dict merged),
          graph := { g with nodes := g.nodes.map (fun m =>
            if m.element_id = node_id then
              { m with properties := mergeProps m.properties properties }
            else m) },
          executed := [query] }
      | none =>
        { status := 404, body := .err "Node not found", graph := g, executed := [query] }

/-- `delete_node` (`DELETE /nodes/<node_id>`): `DETACH DELETE` removes
every matched node together with all its incident relationships and the
statement reports `count(n) as deleted_count`; a zero count yields 404
and leaves the graph unchanged. -/
def delete_node (g : Graph) (node_id : String) : RouteResult :=
  let query :=
    "MATCH (n) WHERE elementId(n) = $node_id DETACH DELETE n RETURN count(n) as deleted_count"
  let deleted_count := (g.nodes.filter (fun n => n.element_id = node_id)).length
  if deleted_count > 0 then
    { status := 200, body := .message "Node deleted successfully",
      graph := { g with
        nodes := g.nodes.filter (fun n => !(n.element_id = node_id)),
        rels := g.rels.filter (fun r => !(r.startId = node_id) && !(r.endId = node_id)) },
      executed := [query] }
  else
    { status := 404, body := .err "Node not found", graph := g, executed := [query] }

/-- `get_nodes_by_label` (`GET /nodes/label/<label>`). -/
def get_nodes_by_label (g : Graph) (label : String) : RouteResult :=
  let v := validate_identifier label "label"
  if !v.1 then
    { status := 400, body := .err (v.2.getD ""), graph := g, executed := [] }
  else
    let query := "MATCH (n:" ++ label ++ ") RETURN n"
    let ns := (g.nodes.filter (fun n => n.labels.contains label)).map node_to_dict
    { status := 200, body := .nodeList ns ns.length, graph := g, executed := [query] }

/-! ### Relationship routes (`routes/relationships.py`) -/

/-- `create_relationship` (`POST /relationships`).  The statement matches
both endpoints by element id and creates the edge only when both
matches produce a row; otherwise no row is returned and nothing is
created.  `exc` injects an unexpected exception inside the `try` block;
this route's generic handler returns
`jsonify({"error": "Internal server error", "message": str(e)})`. -/
def create_relationship (g : Graph) (data : Option CreateRelRequest) (exc : Option String) :
    RouteResult :=
  match data with
  | none => { status := 400, body := .err "No data provided", graph := g, executed := [] }
  | some d =>
    if pyFalsyOptStr d.from_node || pyFalsyOptStr d.to_node || pyFalsyOptStr d.type then
      { status := 400, body := .err "from_node, to_node, and type are required",
        graph := g, executed := [] }
    else
      let rel_type := d.type.getD ""
      let v := validate_identifier rel_type "relationship type"
      if !v.1 then
        { status := 400, body := .err (v.2.getD ""), graph := g, executed := [] }
      else
        match exc with
        | some e =>
          { status := 500, body := .errWithDetail "Internal server error" e,
            graph := g, executed := [] }
        | none =>
          let from_node := d.from_node.getD ""
          let to_node := d.to_node.getD ""
          let query :=
            "MATCH (a) WHERE elementId(a) = $from_node MATCH (b) WHERE elementId(b) = $to_node CREATE (a)-[r:"
              ++ rel_type ++ " $properties]->(b) RETURN r"
          if hasNodeId g from_node && hasNodeId g to_node then
            let rel : GRel :=
              { element_id := freshId g, type := rel_type, startId := from_node,
                endId := to_node, properties := d.properties }
            { status := 201, body := .relRec (relationship_to_dict rel),
              graph := { g with rels := g.rels ++ [rel], nextId := g.nextId + 1 },
              executed := [query] }
          else
            { status := 404, body := .err "Failed to create relationship. Nodes may not exist.",
              graph := g, executed := [query] }

/-! ### Query routes (`routes/queries.py`) -/

/-- The `[r]` / `[r:TYPE]` fragment of the match pattern: the code builds
the pattern with `[r]` and then, when a type filter is supplied
(truthy), applies `.replace("[r]", f"[r:TYPE]")`; the embedding composes
the resulting text directly. -/
def relPatternTag (rel_type : Option String) : String :=
  match rel_type with
  | some s => if s = "" then "[r]" else "[r:" ++ s ++ "]"
  | none => "[r]"

/-- Pattern selection from `get_node_relationships`: `"incoming"` gives
`<-[r]-()`, `"outgoing"` gives `-[r]->()`, and every other direction
string falls into the `else` branch giving the undirected `-[r]-()`. -/
def directionPattern (direction : String) (rel_type : Option String) : String :=
  if direction = "incoming" then "<-" ++ relPatternTag rel_type ++ "-()"
  else if direction = "outgoing" then "-" ++ relPatternTag rel_type ++ "->()"
  else "-" ++ relPatternTag rel_type ++ "-()"

/-- Row semantics of the built pattern: which relationships of the graph
the statement returns for a given bound node id. -/
def relMatchesDirection (direction : String) (node_id : String) (r : GRel) : Bool :=
  if direction = "incoming" then r.endId = node_id
  else if direction = "outgoing" then r.startId = node_id
  else r.startId = node_id || r.endId = node_id

/-- `get_node_relationships` (`GET /nodes/<node_id>/relationships`).
`direction` defaults to `"all"` via `request.args.get('direction', 'all')`;
the type filter is applied only when truthy (`if rel_type:`), and is
validated first in that case. -/
def get_node_relationships (g : Graph) (node_id : String) (direction : Option String)
    (rel_type : Option String) : RouteResult :=
  let dir := direction.getD "all"
  let typeTruthy : Bool := match rel_type with | some s => s ≠ "" | none => false
  let v := if typeTruthy then validate_identifier (rel_type.getD "") "relationship type"
           else (true, none)
  if !v.1 then
    { status := 400, body := .err (v.2.getD ""), graph := g, executed := [] }
  else
    let pattern := directionPattern dir (if typeTruthy then rel_type else none)
    let query := "MATCH (n)" ++ pattern ++ " WHERE elementId(n) = $node_id RETURN r"
    let rs :=
      if hasNodeId g node_id then
        g.rels.filter (fun r =>
          relMatchesDirection dir node_id r &&
            (if typeTruthy then r.type = rel_type.getD "" else true))
      else []
    { status := 200, body := .relList (rs.map relationship_to_dict) rs.length,
      graph := g, executed := [query] }

/-- Shape-based dispatch of `execute_cypher`, applied to every value of
every result row: `hasattr(value, 'labels')` → `node_to_dict`,
`hasattr(value, 'type') and hasattr(value, 'start_node')` →
`relationship_to_dict`, anything else is passed through unchanged. -/
def mapNeoValue : NeoValue → RowVal
  | .nodeVal n => .nodeRec (node_to_dict n)
  | .relVal r => .relRec (relationship_to_dict r)
  | .rawVal v => .raw v

/-- One result record mapped key by key. -/
def mapRecord (rec : List (String × NeoValue)) : List (String × RowVal) :=
  rec.map (fun kv => (kv.1, mapNeoValue kv.2))

/-- `execute_cypher` (`POST /query/cypher`).  The backend — the external
Neo4j engine executing an arbitrary caller-supplied statement — is a
parameter mapping the statement text and bound parameters to either a
`Neo4jError` message or the list of result records. -/
def execute_cypher (g : Graph)
    (backend : String → List (String × JValue) → Except String (List (List (String × NeoValue))))
    (data : Option CypherRequest) : RouteResult :=
  match data with
  | none => { status := 400, body := .err "No query provided", graph := g, executed := [] }
  | some d =>
    match d.query with
    | none => { status := 400, body := .err "No query provided", graph := g, executed := [] }
    | some q =>
      match backend q d.parameters with
      | .error e =>
        { status := 500, body := .err ("Database error: " ++ e), graph := g, executed := [q] }
      | .ok result =>
        let records := result.map mapRecord
        { status := 200, body := .rows records records.length, graph := g, executed := [q] }

/-- Type filter of `find_path`: applied only when `relationship_types`
is truthy (a non-empty list). -/
def relAllowed (rel_types : Option (List String)) (t : String) : Bool :=
  match rel_types with
  | some (ty :: tys) => (ty :: tys).contains t
  | _ => true

/-- One undirected expansion step of every partial path in the frontier. -/
def pathStep (g : Graph) (allow : String → Bool) (p : String × List GRel) :
    List (String × List GRel) :=
  g.rels.filterMap (fun r =>
    if allow r.type then
      if r.startId = p.1 then some (r.endId, p.2 ++ [r])
      else if r.endId = p.1 then some (r.startId, p.2 ++ [r])
      else none
    else none)

/-- Breadth-first semantics of
`shortestPath((a)-[*..maxDepth]-(b))`: the relationship sequence of a
minimum-hop undirected path of at most `fuel` additional hops from the
frontier to `target`, if one exists. -/
def bfsPaths (g : Graph) (allow : String → Bool) (target : String) :
    Nat → List (String × List GRel) → Option (List GRel)
  | 0, frontier => (frontier.find? (fun p => p.1 = target)).map Prod.snd
  | fuel + 1, frontier =>
    match frontier.find? (fun p => p.1 = target) with
    | some p => some p.2
    | none => bfsPaths g allow target fuel (frontier.flatMap (pathStep g allow))

/-- The node ids visited along a path that starts at `start` and follows
the given relationships (in either direction). -/
def nodesAlong (start : String) : List GRel → List String
  | [] => [start]
  | r :: rs => start :: nodesAlong (if r.startId = start then r.endId else r.startId) rs

/-- `find_path` (`POST /query/path`): presence check on the endpoints,
the `isinstance`/range guard on `max_depth`, validation of any truthy
`relationship_types`, then the shortest-path statement.  The statement
text interpolates `max_depth` with an f-string; when `max_depth` is a
Python `int` instance that is not an integer literal (a boolean renders
as `True`/`False`), the resulting `[*..True]` bound is a Cypher syntax
error, which the backend reports as a `Neo4jError` (500). -/
def find_path (g : Graph) (data : Option FindPathRequest) : RouteResult :=
  match data with
  | none => { status := 400, body := .err "No data provided", graph := g, executed := [] }
  | some d =>
    if pyFalsyOptStr d.from_node || pyFalsyOptStr d.to_node then
      { status := 400, body := .err "from_node and to_node are required",
        graph := g, executed := [] }
    else
      let max_depth := d.max_depth.getD (.jint 5)
      if !(pyIsInstInt max_depth) || pyIntVal max_depth < 1 || pyIntVal max_depth > 15 then
        { status := 400, body := .err "max_depth must be an integer between 1 and 15",
          graph := g, executed := [] }
      else
        let typesTruthy : Bool :=
          match d.relationship_types with | some (_ :: _) => true | _ => false
        let v := if typesTruthy then
                   validate_identifiers (d.relationship_types.getD []) "relationship type"
                 else (true, none)
        if !v.1 then
          { status := 400, body := .err (v.2.getD ""), graph := g, executed := [] }
        else
          let rel_filter :=
            if typesTruthy then ":" ++ String.intercalate "|" (d.relationship_types.getD [])
            else ""
          let query := "MATCH path = shortestPath( (a)-[" ++ rel_filter ++ "*.."
            ++ pyStr max_depth
            ++ "]-(b) ) WHERE elementId(a) = $from_node AND elementId(b) = $to_node RETURN path"
          match max_depth with
          | .jint n =>
            let from_node := d.from_node.getD ""
            let to_node := d.to_node.getD ""
            if hasNodeId g from_node && hasNodeId g to_node then
              match bfsPaths g (relAllowed d.relationship_types) to_node n.toNat
                  [(from_node, [])] with
              | some rels =>
                let ns := (nodesAlong from_node rels).filterMap (fun i =>
                  (g.nodes.find? (fun m => m.element_id = i)).map node_to_dict)
                { status := 200,
                  body := .pathRec ns (rels.map relationship_to_dict) rels.length,
                  graph := g, executed := [query] }
              | none =>
                { status := 404, body := .err "No path found between the nodes",
                  graph := g, executed := [query] }
            else
              { status := 404, body := .err "No path found between the nodes",
                graph := g, executed := [query] }
          | _ =>
            { status := 500, body := .err "Database error: invalid statement",
              graph := g, executed := [query] }

/-- `get_relationships_by_type` (`GET /relationships/type/<rel_type>`). -/
def get_relationships_by_type (g : Graph) (rel_type : String) : RouteResult :=
  let v := validate_identifier rel_type "relationship type"
  if !v.1 then
    { status := 400, body := .err (v.2.getD ""), graph := g, executed := [] }
  else
    let query := "MATCH ()-[r:" ++ rel_type ++ "]->() RETURN r"
    let rs := (g.rels.filter (fun r => r.type = rel_type)).map relationship_to_dict
    { status := 200, body := .relList rs rs.length, graph := g, executed := [query] }

/-! ### Auxiliary definitions for stating properties -/

/-- First value bound to a key in a property association list (the
dictionary lookup of the JSON property map). -/
def lookupKey (k : String) : List (String × JValue) → Option JValue
  | [] => none
  | (k', v) :: rest => if k' = k then some v else lookupKey k rest

/-- Concrete sample node used in witnesses. -/
def nodeA : GNode :=
  { element_id := "a", labels := ["Person"], properties := [("name", .jstr "Alice")] }

/-- Concrete sample node used in witnesses. -/
def nodeB : GNode := { element_id := "b", labels := ["Person"], properties := [] }

/-- Concrete sample relationship used in witnesses. -/
def relAB : GRel :=
  { element_id := "r1", type := "KNOWS", startId := "a", endId := "b",
    properties := [("since", .jint 2020)] }

/-- Concrete sample graph used in witnesses: two `Person` nodes joined by
one `KNOWS` relationship. -/
def sampleGraph : Graph := { nodes := [nodeA, nodeB], rels := [relAB], nextId := 0 }

/-! ## Theorems -/

/-- Bool-level characterisation of the Python regex match. -/
theorem pyPatternMatch_iff (s : String) :
    pyPatternMatch s = true ↔
      (identMatchCore s = true ∨
        (s.data.getLast? = some '\n' ∧ identMatchCore (String.mk s.data.dropLast) = true)) := by
  unfold pyPatternMatch
  simp [Bool.or_eq_true, Bool.and_eq_true, decide_eq_true_eq]

/-- C1 (counterexample): the string `"abc\n"` contains a newline — it does
not match the grammar `^[A-Za-z_][A-Za-z0-9_]*$` — and is well within the
length bound, yet `validate_identifier` accepts it, because Python's `$`
anchor also matches just before a single trailing newline.  This refutes
the claim that acceptance holds exactly on the grammar. -/
theorem C1_trailing_newline_counterexample :
    validate_identifier "abc\n" "label" = (true, none) ∧
    identMatchCore "abc\n" = false ∧
    ("abc\n").length ≤ 65535 := by decide

/-- C1 (amended): `validate_identifier` accepts exactly the strings of
length at most 65535 that either match the grammar
`^[A-Za-z_][A-Za-z0-9_]*$` or consist of a grammar match followed by one
trailing newline; every other string is rejected with an error message
that starts with the given role name. -/
theorem C1_validate_identifier_accepts_iff (value name : String) :
    ((validate_identifier value name).1 = true ↔
      ((identMatchCore value = true ∨
          (value.data.getLast? = some '\n' ∧
            identMatchCore (String.mk value.data.dropLast) = true)) ∧
        value.length ≤ 65535)) ∧
    ((validate_identifier value name).1 = false →
      ∃ suffix, (validate_identifier value name).2 = some (name ++ suffix)) := by
  constructor
  · rw [← pyPatternMatch_iff]
    unfold validate_identifier
    split_ifs with h1 h2 h3
    · subst h1; decide
    · simp only [Bool.not_eq_true'] at h2
      simp [h2]
    · simp only [Bool.not_eq_true', Bool.not_eq_false] at h2
      simp only [gt_iff_lt, Nat.lt_iff_add_one_le] at h3
      constructor
      · intro h; cases h
      · rintro ⟨-, hle⟩; omega
    · simp only [Bool.not_eq_true', Bool.not_eq_false] at h2
      simp only [gt_iff_lt, not_lt] at h3
      simp [h2, h3]
  · unfold validate_identifier
    split_ifs with h1 h2 h3
    · exact fun _ => ⟨" cannot be empty", rfl⟩
    · exact fun _ =>
        ⟨" must contain only alphanumeric characters and underscores, and start with a letter",
          rfl⟩
    · exact fun _ => ⟨" is too long (max 65535 characters)", rfl⟩
    · intro h; cases h

/-- C1 witness: a concrete acceptance and a concrete rejection whose
error message names the role, both obtained from the theorem. -/
theorem C1_validate_identifier_accepts_iff_witness :
    (validate_identifier "Person" "label").1 = true ∧
    ∃ suffix, (validate_identifier "9bad" "label").2 = some ("label" ++ suffix) :=
  ⟨((C1_validate_identifier_accepts_iff "Person" "label").1).mpr (by decide),
    (C1_validate_identifier_accepts_iff "9bad" "label").2 (by decide)⟩

/-- C4 (code bug): on an unexpected exception with detail text
`"secret internal detail"`, `create_relationship`'s generic handler
returns a body that carries the exception's detail text in a `message`
field, while `create_node`'s handler on the same exception returns only
the generic message.  This contradicts the stated policy that an
InternalError response carries only a generic message. -/
theorem C4_create_relationship_leaks_exception_detail :
    (create_relationship sampleGraph
        (some { from_node := some "a", to_node := some "b", type := some "LIKES" })
        (some "secret internal detail")).body
      = Body.errWithDetail "Internal server error" "secret internal detail" ∧
    (create_relationship sampleGraph
        (some { from_node := some "a", to_node := some "b", type := some "LIKES" })
        (some "secret internal detail")).status = 500 ∧
    (create_node sampleGraph (some { labels := ["Person"] })
        (some "secret internal detail")).body
      = Body.err "Internal server error" := by decide

/-- C5 (code bug): `teardown_db` is registered with
`@app.teardown_appcontext`, which Flask invokes at the end of every
request, so the driver handle is closed after each request and
reconstructed by the next one: after two requests the driver has been
constructed twice, and the second request does not reuse the first
request's handle.  This contradicts the claim that the handle is
constructed at most once per process and released only at process
teardown. -/
theorem C5_driver_reconstructed_per_request :
    (handleRequests 2 initConn).built = 2 ∧
    (get_driver (handleRequest initConn)).1 ≠ (get_driver initConn).1 ∧
    (handleRequest initConn).driver = none := by decide

/-- A string accepted by `validate_identifier` is non-empty (and hence
truthy in Python). -/
theorem validate_identifier_ne_empty {v n : String}
    (h : (validate_identifier v n).1 = true) : v ≠ "" := by
  intro hv; subst hv; simp [validate_identifier] at h

/-- C3: with both endpoint ids present and a valid relationship type,
`create_relationship` creates the relationship and returns it with 201
exactly when both endpoints match existing nodes; when either endpoint
matches no node it returns 404 and leaves the graph completely
unchanged — no relationship and no partial edge is created. -/
theorem C3_create_relationship_endpoints (g : Graph) (d : CreateRelRequest) (f t ty : String)
    (hf : d.from_node = some f) (hf' : f ≠ "")
    (ht : d.to_node = some t) (ht' : t ≠ "")
    (hty : d.type = some ty)
    (hv : (validate_identifier ty "relationship type").1 = true) :
    (hasNodeId g f = true ∧ hasNodeId g t = true →
      (create_relationship g (some d) none).status = 201 ∧
      (create_relationship g (some d) none).graph.nodes = g.nodes ∧
      ∃ newRel : GRel,
        (create_relationship g (some d) none).graph.rels = g.rels ++ [newRel] ∧
        newRel.type = ty ∧ newRel.startId = f ∧ newRel.endId = t ∧
        newRel.properties = d.properties ∧
        (create_relationship g (some d) none).body
          = .relRec (relationship_to_dict newRel)) ∧
    (¬(hasNodeId g f = true ∧ hasNodeId g t = true) →
      (create_relationship g (some d) none).status = 404 ∧
      (create_relationship g (some d) none).graph = g) := by
  have hty' : ty ≠ "" := validate_identifier_ne_empty hv
  unfold create_relationship
  simp only [hf, ht, hty, pyFalsyOptStr, Option.getD_some]
  simp only [decide_eq_true_eq, hf', ht', hty', decide_False, Bool.or_self, Bool.false_or,
    Bool.or_false, if_false, ite_false]
  simp only [hv, Bool.not_true, Bool.false_eq_true, if_false, ite_false]
  constructor
  · rintro ⟨h1, h2⟩
    split
    · exact ⟨rfl, rfl, _, rfl, rfl, rfl, rfl, rfl, rfl⟩
    · next hcond => rw [h1, h2] at hcond; simp at hcond
  · intro hneg
    split
    · next hcond =>
        rw [Bool.and_eq_true] at hcond
        exact absurd hcond hneg
    · exact ⟨rfl, rfl⟩

/-- C3 witness: in the sample graph, creating a relationship to the
non-existent node id `"zzz"` returns 404 and changes nothing. -/
theorem C3_create_relationship_endpoints_witness :
    (create_relationship sampleGraph
        (some { from_node := some "a", to_node := some "zzz", type := some "KNOWS" })
        none).status = 404 ∧
    (create_relationship sampleGraph
        (some { from_node := some "a", to_node := some "zzz", type := some "KNOWS" })
        none).graph = sampleGraph :=
  (C3_create_relationship_endpoints sampleGraph
      { from_node := some "a", to_node := some "zzz", type := some "KNOWS" }
      "a" "zzz" "KNOWS" rfl (by decide) rfl (by decide) rfl (by decide)).2 (by decide)

/-- Node-id existence is equivalent to the match statement producing a
positive count. -/
theorem hasNodeId_iff_filter_pos (g : Graph) (i : String) :
    hasNodeId g i = true ↔ 0 < (g.nodes.filter (fun n => n.element_id = i)).length := by
  simp [hasNodeId, List.any_eq_true, List.length_pos_iff_exists_mem, List.mem_filter]

/-- C7: `delete_node` returns 200 exactly when the match counted a
deleted node and 404 exactly when no node has the id; a 404 leaves the
graph unchanged; a successful delete removes the node and every incident
relationship while keeping all other relationships; and deleting the
same id again always returns 404 without touching the graph. -/
theorem C7_delete_node_detach_idempotent (g : Graph) (node_id : String) :
    ((delete_node g node_id).status = 200 ↔
        0 < (g.nodes.filter (fun n => n.element_id = node_id)).length) ∧
    ((delete_node g node_id).status = 404 ↔ hasNodeId g node_id = false) ∧
    ((delete_node g node_id).status = 404 → (delete_node g node_id).graph = g) ∧
    ((delete_node g node_id).status = 200 →
      hasNodeId (delete_node g node_id).graph node_id = false ∧
      (∀ r ∈ (delete_node g node_id).graph.rels,
        r.startId ≠ node_id ∧ r.endId ≠ node_id) ∧
      (∀ r ∈ g.rels, r.startId ≠ node_id → r.endId ≠ node_id →
        r ∈ (delete_node g node_id).graph.rels)) ∧
    (delete_node (delete_node g node_id).graph node_id).status = 404 ∧
    (delete_node (delete_node g node_id).graph node_id).graph
      = (delete_node g node_id).graph := by
  by_cases hc : 0 < (g.nodes.filter (fun n => n.element_id = node_id)).length
  · have h0 : ((g.nodes.filter (fun n => !(n.element_id = node_id))).filter
        (fun n => n.element_id = node_id)) = [] := by
      rw [List.filter_filter]
      apply List.filter_eq_nil_iff.mpr
      intro a _
      simp
    have hid : hasNodeId g node_id = true := (hasNodeId_iff_filter_pos g node_id).mpr hc
    simp only [delete_node, gt_iff_lt, hc, if_true, h0, List.length_nil,
      lt_self_iff_false, if_false]
    refine ⟨by simp [hc], by simp [hid], by simp, ?_, by trivial, by trivial⟩
    intro _
    refine ⟨?_, ?_, ?_⟩
    · rw [← Bool.not_eq_true, hasNodeId_iff_filter_pos]
      simp [h0]
    · intro r hr
      rw [List.mem_filter] at hr
      rcases hr with ⟨_, hr⟩
      simp only [Bool.and_eq_true, Bool.not_eq_true'] at hr
      exact ⟨by simpa using hr.1, by simpa using hr.2⟩
    · intro r hr h1 h2
      rw [List.mem_filter]
      exact ⟨hr, by simp [h1, h2]⟩
  · have hid : hasNodeId g node_id = false := by
      rw [← Bool.not_eq_true, hasNodeId_iff_filter_pos]
      exact hc
    simp only [delete_node, gt_iff_lt, hc, if_false]
    exact ⟨by simp [hc], by simp [hid], fun _ => trivial, by simp, by trivial, by trivial⟩

/-- C7 witness: deleting node `"a"` of the sample graph succeeds and
removes its incident relationship; a second delete of the same id
returns 404 and leaves the graph as it was. -/
theorem C7_delete_node_detach_idempotent_witness :
    ((delete_node sampleGraph "a").status = 200 ↔
        0 < (sampleGraph.nodes.filter (fun n => n.element_id = "a")).length) ∧
    (delete_node (delete_node sampleGraph "a").graph "a").status = 404 :=
  ⟨(C7_delete_node_detach_idempotent sampleGraph "a").1,
    (C7_delete_node_detach_idempotent sampleGraph "a").2.2.2.2.1⟩

/-- Any direction other than `"incoming"`/`"outgoing"` builds the same
pattern text as `"all"`. -/
theorem directionPattern_other {d : String} (h1 : d ≠ "incoming") (h2 : d ≠ "outgoing")
    (rt : Option String) : directionPattern d rt = directionPattern "all" rt := by
  unfold directionPattern
  rw [if_neg h1, if_neg h2, if_neg (by decide), if_neg (by decide)]

/-- Any direction other than `"incoming"`/`"outgoing"` selects the same
rows as `"all"`. -/
theorem relMatchesDirection_other {d : String} (h1 : d ≠ "incoming") (h2 : d ≠ "outgoing")
    (node_id : String) (r : GRel) :
    relMatchesDirection d node_id r = relMatchesDirection "all" node_id r := by
  unfold relMatchesDirection
  rw [if_neg h1, if_neg h2, if_neg (by decide), if_neg (by decide)]

/-- C10: for `get_node_relationships`, every direction value other than
exactly `"incoming"` or `"outgoing"` produces the very same response as
`"all"` (the undirected pattern), and a 400 arises exactly from an
invalid truthy type filter — never from the direction. -/
theorem C10_get_node_relationships_direction (g : Graph) (node_id d : String)
    (rel_type : Option String) (h1 : d ≠ "incoming") (h2 : d ≠ "outgoing") :
    get_node_relationships g node_id (some d) rel_type
      = get_node_relationships g node_id (some "all") rel_type ∧
    ((get_node_relationships g node_id (some d) rel_type).status = 400 ↔
      (∃ s, rel_type = some s ∧ s ≠ "" ∧
        (validate_identifier s "relationship type").1 = false)) := by
  constructor
  · simp only [get_node_relationships, Option.getD_some, directionPattern_other h1 h2,
      relMatchesDirection_other h1 h2]
  · rcases rel_type with _ | s
    · simp [get_node_relationships]
    · by_cases hs : s = ""
      · subst hs
        simp [get_node_relationships]
      · rcases hv : (validate_identifier s "relationship type").1 with _ | _
        · simp [get_node_relationships, hs, hv]
        · simp [get_node_relationships, hs, hv]

/-- C10 witness: the misspelled direction `"incomming"` behaves exactly
like `"all"` and does not produce a ValidationError. -/
theorem C10_get_node_relationships_direction_witness :
    get_node_relationships sampleGraph "a" (some "incomming") none
      = get_node_relationships sampleGraph "a" (some "all") none ∧
    ¬ (get_node_relationships sampleGraph "a" (some "incomming") none).status = 400 :=
  ⟨(C10_get_node_relationships_direction sampleGraph "a" "incomming" none
      (by decide) (by decide)).1,
    fun h => by
      have := (C10_get_node_relationships_direction sampleGraph "a" "incomming" none
        (by decide) (by decide)).2.mp h
      rcases this with ⟨s, hs, -⟩
      exact Option.noConfusion hs⟩

/-- C9: when a query is supplied and the backend returns rows,
`execute_cypher` sends exactly the caller's statement text (unmodified,
with no identifier validation, whatever the text contains), leaves the
graph alone, returns 200 with every row mapped value-by-value by the
shape dispatch — a node value becomes the record of id, labels and
properties; a relationship value becomes the record of id, type,
endpoint ids and properties; any other value passes through unchanged —
and the reported count is the number of result rows. -/
theorem C9_execute_cypher_mapping (g : Graph)
    (backend : String → List (String × JValue) →
      Except String (List (List (String × NeoValue))))
    (d : CypherRequest) (q : String) (hq : d.query = some q)
    (rows : List (List (String × NeoValue)))
    (hrows : backend q d.parameters = .ok rows) :
    (execute_cypher g backend (some d)).executed = [q] ∧
    (execute_cypher g backend (some d)).status = 200 ∧
    (execute_cypher g backend (some d)).graph = g ∧
    (execute_cypher g backend (some d)).body
      = .rows (rows.map mapRecord) ((rows.map mapRecord).length) ∧
    (rows.map mapRecord).length = rows.length ∧
    (∀ n : GNode, mapNeoValue (.nodeVal n)
      = .nodeRec { id := n.element_id, labels := n.labels, properties := n.properties }) ∧
    (∀ r : GRel, mapNeoValue (.relVal r)
      = .relRec { id := r.element_id, type := r.type, start_node_id := r.startId,
                  end_node_id := r.endId, properties := r.properties }) ∧
    (∀ v : JValue, mapNeoValue (.rawVal v) = .raw v) := by
  simp only [execute_cypher, hq, hrows]
  exact ⟨by trivial, by trivial, by trivial, by trivial, by simp,
    fun n => rfl, fun r => rfl, fun v => rfl⟩

/-- C9 witness: a concrete backend returning one node row and one raw
row; the statement text is passed through verbatim and the mapping and
count are as stated. -/
theorem C9_execute_cypher_mapping_witness :
    (execute_cypher sampleGraph
        (fun _ _ => Except.ok
          [[("n", NeoValue.nodeVal nodeA)], [("x", NeoValue.rawVal (JValue.jint 7))]])
        (some { query := some "MATCH (n) RETURN n, n.missing:::" })).executed
      = ["MATCH (n) RETURN n, n.missing:::"] ∧
    (execute_cypher sampleGraph
        (fun _ _ => Except.ok
          [[("n", NeoValue.nodeVal nodeA)], [("x", NeoValue.rawVal (JValue.jint 7))]])
        (some { query := some "MATCH (n) RETURN n, n.missing:::" })).status = 200 :=
  ⟨(C9_execute_cypher_mapping sampleGraph
      (fun _ _ => Except.ok
        [[("n", NeoValue.nodeVal nodeA)], [("x", NeoValue.rawVal (JValue.jint 7))]])
      { query := some "MATCH (n) RETURN n, n.missing:::" }
      "MATCH (n) RETURN n, n.missing:::" rfl
      [[("n", NeoValue.nodeVal nodeA)], [("x", NeoValue.rawVal (JValue.jint 7))]] rfl).1,
    (C9_execute_cypher_mapping sampleGraph
      (fun _ _ => Except.ok
        [[("n", NeoValue.nodeVal nodeA)], [("x", NeoValue.rawVal (JValue.jint 7))]])
      { query := some "MATCH (n) RETURN n, n.missing:::" }
      "MATCH (n) RETURN n, n.missing:::" rfl
      [[("n", NeoValue.nodeVal nodeA)], [("x", NeoValue.rawVal (JValue.jint 7))]] rfl).2.1⟩

/-- Unfolding equation of `lookupKey` on a cons cell. -/
theorem lookupKey_cons (k k' : String) (v : JValue) (rest : List (String × JValue)) :
    lookupKey k ((k', v) :: rest) = if k' = k then some v else lookupKey k rest := rfl

/-- A key bound in an association list is reported by `any`. -/
theorem any_of_lookupKey_some {k : String} {p : List (String × JValue)} {v : JValue}
    (h : lookupKey k p = some v) : p.any (fun q => q.1 = k) = true := by
  induction p with
  | nil => simp [lookupKey] at h
  | cons hd tl ih =>
    obtain ⟨k', v'⟩ := hd
    by_cases h1 : k' = k
    · simp [h1]
    · rw [lookupKey_cons, if_neg h1] at h
      simp [ih h]

/-- A key absent from an association list stays absent after any filter. -/
theorem lookupKey_filter_none {k : String} {p : List (String × JValue)}
    (h : p.any (fun q => q.1 = k) = false) (G : String × JValue → Bool) :
    lookupKey k (p.filter G) = none := by
  induction p with
  | nil => simp [lookupKey]
  | cons hd tl ih =>
    obtain ⟨k', v'⟩ := hd
    simp only [List.any_cons, Bool.or_eq_false_iff, decide_eq_false_iff_not] at h
    by_cases hg : G (k', v') = true
    · rw [List.filter_cons, if_pos hg, lookupKey_cons, if_neg h.1]
      exact ih (by simpa using h.2)
    · rw [List.filter_cons, if_neg hg]
      exact ih (by simpa using h.2)

/-- Appending after a list without the key defers the lookup. -/
theorem lookupKey_append_of_none {k : String} {l₁ : List (String × JValue)}
    (h : lookupKey k l₁ = none) (l₂ : List (String × JValue)) :
    lookupKey k (l₁ ++ l₂) = lookupKey k l₂ := by
  induction l₁ with
  | nil => simp
  | cons hd tl ih =>
    obtain ⟨k', v'⟩ := hd
    rw [lookupKey_cons] at h
    by_cases h1 : k' = k
    · rw [if_pos h1] at h; cases h
    · rw [if_neg h1] at h
      rw [List.cons_append, lookupKey_cons, if_neg h1]
      exact ih h

/-- A key found in the first list is found in the concatenation. -/
theorem lookupKey_append_of_some {k : String} {l₁ : List (String × JValue)} {v : JValue}
    (h : lookupKey k l₁ = some v) (l₂ : List (String × JValue)) :
    lookupKey k (l₁ ++ l₂) = some v := by
  induction l₁ with
  | nil => simp [lookupKey] at h
  | cons hd tl ih =>
    obtain ⟨k', v'⟩ := hd
    rw [lookupKey_cons] at h
    rw [List.cons_append, lookupKey_cons]
    by_cases h1 : k' = k
    · rwa [if_pos h1] at h ⊢
    · rw [if_neg h1] at h ⊢
      exact ih h

/-- In `mergeProps`, the keys kept from the old map (those the update map
does not mention) keep their old lookup. -/
theorem lookupKey_filter_keyconst_true {k : String} {p : List (String × JValue)}
    (old : List (String × JValue)) (h : p.any (fun q => q.1 = k) = false) :
    lookupKey k (old.filter (fun kv => !(p.any (fun q => q.1 = kv.1))))
      = lookupKey k old := by
  induction old with
  | nil => rfl
  | cons hd tl ih =>
    obtain ⟨k', v'⟩ := hd
    by_cases h1 : k' = k
    · subst h1
      rw [List.filter_cons, if_pos (by simp [h]), lookupKey_cons, if_pos rfl,
        lookupKey_cons, if_pos rfl]
    · cases h2 : (p.any (fun q => q.1 = k')) with
      | true =>
        rw [List.filter_cons, if_neg (by simp [h2]), lookupKey_cons, if_neg h1]
        exact ih
      | false =>
        rw [List.filter_cons, if_pos (by simp [h2]),
          lookupKey_cons, if_neg h1, lookupKey_cons, if_neg h1]
        exact ih

/-- In `mergeProps`, every old entry whose key the update map mentions is
dropped from the first component. -/
theorem lookupKey_filter_dropped {k : String} {p : List (String × JValue)}
    (old : List (String × JValue)) (h : p.any (fun q => q.1 = k) = true) :
    lookupKey k (old.filter (fun kv => !(p.any (fun q => q.1 = kv.1)))) = none := by
  induction old with
  | nil => rfl
  | cons hd tl ih =>
    obtain ⟨k', v'⟩ := hd
    by_cases h1 : k' = k
    · subst h1
      rw [List.filter_cons, if_neg (by simp [h])]
      exact ih
    · cases h2 : (p.any (fun q => q.1 = k')) with
      | true =>
        rw [List.filter_cons, if_neg (by simp [h2])]
        exact ih
      | false =>
        rw [List.filter_cons, if_pos (by simp [h2]), lookupKey_cons, if_neg h1]
        exact ih

/-- `SET n += p` leaves every property key that `p` does not mention
unchanged. -/
theorem mergeProps_lookup_untouched {p : List (String × JValue)} {k : String}
    (old : List (String × JValue)) (h : p.any (fun q => q.1 = k) = false) :
    lookupKey k (mergeProps old p) = lookupKey k old := by
  unfold mergeProps
  cases hold : lookupKey k old with
  | some v =>
    exact lookupKey_append_of_some
      (by rw [lookupKey_filter_keyconst_true old h, hold]) _
  | none =>
    rw [lookupKey_append_of_none (by rw [lookupKey_filter_keyconst_true old h, hold]) _]
    exact lookupKey_filter_none h _

/-- `SET n += p` gives every key of `p` with a non-null value its new
value. -/
theorem mergeProps_lookup_set {p : List (String × JValue)} {k : String} {v : JValue}
    (old : List (String × JValue)) (hv : lookupKey k p = some v) (hnn : v ≠ .jnull) :
    lookupKey k (mergeProps old p) = some v := by
  have hany : p.any (fun q => q.1 = k) = true := any_of_lookupKey_some hv
  unfold mergeProps
  rw [lookupKey_append_of_none (lookupKey_filter_dropped old hany) _]
  clear hany
  induction p with
  | nil => simp [lookupKey] at hv
  | cons hd tl ih =>
    obtain ⟨k', v'⟩ := hd
    simp only [List.filter_cons]
    by_cases h1 : k' = k
    · rw [lookupKey_cons, if_pos h1] at hv
      have hvv : v' = v := by injection hv
      have hg : keepNonNull (k', v') = true := by
        rw [show keepNonNull (k', v') = keepNonNull (k', v) from by rw [hvv]]
        cases v <;> first | rfl | exact absurd rfl hnn
      rw [if_pos hg, lookupKey_cons, if_pos h1, hvv]
    · rw [lookupKey_cons, if_neg h1] at hv
      by_cases h2 : keepNonNull (k', v') = true
      · rw [if_pos h2, lookupKey_cons, if_neg h1]
        exact ih hv
      · rw [if_neg h2]
        exact ih hv

/-- `SET n += p` removes a key that `p` explicitly sets to null
(`p` having no duplicate keys, as a JSON object / bound parameter map). -/
theorem mergeProps_lookup_unset {p : List (String × JValue)} {k : String}
    (old : List (String × JValue)) (hv : lookupKey k p = some .jnull)
    (hnd : (p.map Prod.fst).Nodup) :
    lookupKey k (mergeProps old p) = none := by
  have hany : p.any (fun q => q.1 = k) = true := any_of_lookupKey_some hv
  unfold mergeProps
  rw [lookupKey_append_of_none (lookupKey_filter_dropped old hany) _]
  clear hany
  induction p with
  | nil => simp [lookupKey] at hv
  | cons hd tl ih =>
    obtain ⟨k', v'⟩ := hd
    rw [List.map_cons, List.nodup_cons] at hnd
    simp only [List.filter_cons]
    by_cases h1 : k' = k
    · rw [lookupKey_cons, if_pos h1] at hv
      have hvv : v' = JValue.jnull := by injection hv
      have hgf : keepNonNull (k', v') = false := by rw [hvv]; rfl
      rw [if_neg (by simp [hgf])]
      have hkeys : tl.any (fun q => q.1 = k) = false := by
        rw [← h1]
        cases hA : tl.any (fun q => q.1 = k') with
        | false => rfl
        | true =>
          rw [List.any_eq_true] at hA
          rcases hA with ⟨q, hq, hq'⟩
          rw [decide_eq_true_eq] at hq'
          exact absurd (List.mem_map.mpr ⟨q, hq, hq'⟩) hnd.1
      exact lookupKey_filter_none hkeys _
    · rw [lookupKey_cons, if_neg h1] at hv
      by_cases h2 : keepNonNull (k', v') = true
      · rw [if_pos h2, lookupKey_cons, if_neg h1]
        exact ih hv hnd.2
      · rw [if_neg h2]
        exact ih hv hnd.2

/-- C6: for an existing node, `update_node` is an additive merge: the
response is 200 with the updated node; every key of the supplied map
with a non-null value takes its new value, every pre-existing key the
map does not mention keeps its previous value, a key explicitly set to
null is unset, relationships are untouched, and every other node
survives unchanged. -/
theorem C6_update_node_additive_merge (g : Graph) (node_id : String) (d : UpdateNodeRequest)
    (props : List (String × JValue)) (hd : d.properties = some props)
    (hnd : (props.map Prod.fst).Nodup)
    (n : GNode) (hn : g.nodes.find? (fun m => m.element_id = node_id) = some n) :
    (update_node g node_id (some d)).status = 200 ∧
    (update_node g node_id (some d)).graph.rels = g.rels ∧
    (update_node g node_id (some d)).body
      = .nodeRec (node_to_dict { n with properties := mergeProps n.properties props }) ∧
    (∀ k v, lookupKey k props = some v → v ≠ .jnull →
      lookupKey k (mergeProps n.properties props) = some v) ∧
    (∀ k, props.any (fun q => q.1 = k) = false →
      lookupKey k (mergeProps n.properties props) = lookupKey k n.properties) ∧
    (∀ k, lookupKey k props = some .jnull →
      lookupKey k (mergeProps n.properties props) = none) ∧
    (∀ m ∈ g.nodes, m.element_id ≠ node_id →
      m ∈ (update_node g node_id (some d)).graph.nodes) := by
  simp only [update_node, hd, hn]
  refine ⟨by trivial, by trivial, by trivial,
    fun k v hv hnn => mergeProps_lookup_set n.properties hv hnn,
    fun k h => mergeProps_lookup_untouched n.properties h,
    fun k hv => mergeProps_lookup_unset n.properties hv hnd,
    ?_⟩
  intro m hm hne
  have hmem := List.mem_map_of_mem
    (fun m => if m.element_id = node_id then
      { m with properties := mergeProps m.properties props } else m) hm
  simpa [hne] using hmem

/-- C6 witness: creating a node with properties `name = "Jane"` and then
updating it with `age = 31` yields a 200 response whose node carries
both `name = "Jane"` and `age = 31`. -/
theorem C6_update_node_additive_merge_witness :
    (update_node
        (create_node { nodes := [], rels := [], nextId := 0 }
          (some { labels := ["Person"], properties := [("name", JValue.jstr "Jane")] })
          none).graph
        "elem:0" (some { properties := some [("age", JValue.jint 31)] })).status = 200 ∧
    lookupKey "age" (mergeProps [("name", JValue.jstr "Jane")] [("age", JValue.jint 31)])
      = some (JValue.jint 31) ∧
    lookupKey "name" (mergeProps [("name", JValue.jstr "Jane")] [("age", JValue.jint 31)])
      = lookupKey "name" [("name", JValue.jstr "Jane")] := by
  have h := C6_update_node_additive_merge
    (create_node { nodes := [], rels := [], nextId := 0 }
      (some { labels := ["Person"], properties := [("name", JValue.jstr "Jane")] })
      none).graph
    "elem:0" { properties := some [("age", JValue.jint 31)] }
    [("age", JValue.jint 31)] rfl (by decide)
    { element_id := "elem:0", labels := ["Person"],
      properties := [("name", JValue.jstr "Jane")] } (by decide)
  exact ⟨h.1, h.2.2.2.1 "age" (JValue.jint 31) (by decide) (by decide),
    h.2.2.2.2.1 "name" (by decide)⟩

/-- C2 (counterexample): two concrete requests refute the claimed
equivalence.  With `max_depth = true` (a JSON boolean, not an integer),
Python's `isinstance(True, int)` lets the guard pass, the shortest-path
statement is built with the text `*..True` and sent to the backend, and
the outcome is a 500 backend error — not the claimed 400 before any
backend call.  With an in-range `max_depth = 5` but an invalid
relationship type, the operation returns 400 even though the claimed
condition on `max_depth` does not hold. -/
theorem C2_find_path_counterexample :
    ((find_path sampleGraph (some { from_node := some "a", to_node := some "b", max_depth := some (.jbool true) })).status = 500 ∧
      (find_path sampleGraph (some { from_node := some "a", to_node := some "b", max_depth := some (.jbool true) })).executed.length = 1) ∧
    ((find_path sampleGraph (some { from_node := some "a", to_node := some "b", max_depth := some (.jint 5), relationship_types := some ["bad type"] })).status = 400) := by
  decide

/-- C2 (amended): for a `find_path` request with both endpoints present
(and non-empty) and any supplied relationship types valid, the guard
`isinstance(max_depth, int) and 1 <= max_depth <= 15` — under Python
semantics, where booleans are `int` instances with values 1/0 — decides
the 400: the response is 400 exactly when `max_depth` (defaulting to 5)
is neither an integer nor a boolean or its numeric value is outside
[1,15]; every such 400 is produced before any backend statement and
leaves the graph unchanged; an in-range integer proceeds to the
shortest-path statement; and the boolean `true` passes the guard and
reaches the backend, which rejects the malformed `*..True` bound (500). -/
theorem C2_find_path_depth_guard (g : Graph) (d : FindPathRequest) (f t : String)
    (hf : d.from_node = some f) (hf' : f ≠ "")
    (ht : d.to_node = some t) (ht' : t ≠ "")
    (hrt : ∀ ty tys, d.relationship_types = some (ty :: tys) →
      (validate_identifiers (ty :: tys) "relationship type").1 = true) :
    ((find_path g (some d)).status = 400 ↔
      ¬(pyIsInstInt (d.max_depth.getD (.jint 5)) = true ∧
        1 ≤ pyIntVal (d.max_depth.getD (.jint 5)) ∧
        pyIntVal (d.max_depth.getD (.jint 5)) ≤ 15)) ∧
    ((find_path g (some d)).status = 400 →
      (find_path g (some d)).executed = [] ∧ (find_path g (some d)).graph = g) ∧
    (∀ n : Int, d.max_depth.getD (.jint 5) = .jint n → 1 ≤ n → n ≤ 15 →
      (find_path g (some d)).executed.length = 1 ∧
      (find_path g (some d)).status ≠ 400) ∧
    (d.max_depth = some (.jbool true) →
      (find_path g (some d)).status = 500 ∧
      (find_path g (some d)).executed.length = 1) := by
  have hfalsy : (pyFalsyOptStr d.from_node || pyFalsyOptStr d.to_node) = false := by
    rw [hf, ht]; simp [pyFalsyOptStr, hf', ht']
  simp only [find_path, hfalsy, Bool.false_eq_true, if_false]
  rcases hmd : d.max_depth.getD (.jint 5) with _ | b | n | sv
  · -- null: not an int instance, rejected by the guard
    refine ⟨by simp [pyIsInstInt], by simp [pyIsInstInt], ?_, ?_⟩
    · intro m hm h1 h2
      exact absurd hm (by simp)
    · intro hb
      rw [hb] at hmd
      simp at hmd
  · cases b
    · -- False: instance check passes, value 0 is out of range
      refine ⟨by simp [pyIsInstInt, pyIntVal], by simp [pyIsInstInt, pyIntVal], ?_, ?_⟩
      · intro m hm h1 h2
        exact absurd hm (by simp)
      · intro hb
        rw [hb] at hmd
        simp at hmd
    · -- True: instance check passes with value 1, reaches the backend,
      -- which rejects the malformed depth literal
      have hguard : (!pyIsInstInt (JValue.jbool true)
          || decide (pyIntVal (JValue.jbool true) < 1)
          || decide (pyIntVal (JValue.jbool true) > 15)) = false := by decide
      simp only [hguard, Bool.false_eq_true, if_false]
      rcases hrel : d.relationship_types with _ | ⟨_ | ⟨ty, tys⟩⟩
      · exact ⟨by simp [pyIsInstInt, pyIntVal], by simp,
          fun m hm h1 h2 => absurd hm (by simp), fun hb => by simp⟩
      · exact ⟨by simp [pyIsInstInt, pyIntVal], by simp,
          fun m hm h1 h2 => absurd hm (by simp), fun hb => by simp⟩
      · have hval := hrt ty tys hrel
        simp only [Option.getD_some, if_true, hval, Bool.not_true, Bool.false_eq_true, if_false]
        exact ⟨by simp [pyIsInstInt, pyIntVal], by simp,
          fun m hm h1 h2 => absurd hm (by simp), fun hb => by simp⟩
  · by_cases hr : 1 ≤ n ∧ n ≤ 15
    · -- in-range integer: proceeds to the shortest-path statement
      have hg1 : decide (n < 1) = false := by simp; omega
      have hg2 : decide (n > 15) = false := by simp; omega
      simp only [pyIsInstInt, pyIntVal, hg1, hg2, Bool.not_true, Bool.or_false,
        Bool.false_eq_true, if_false]
      rcases hrel : d.relationship_types with _ | ⟨_ | ⟨ty, tys⟩⟩
      · refine ⟨iff_of_false ?_ (fun hcon => hcon ⟨by trivial, hr.1, hr.2⟩), fun h400 => ?_,
          fun m hm h1 h2 => ⟨?_, ?_⟩, fun hb => ?_⟩
        · intro h400
          revert h400
          (repeat' split) <;> simp_all
        · exfalso
          revert h400
          (repeat' split) <;> simp_all
        · (repeat' split) <;> simp_all
        · (repeat' split) <;> simp_all
        · rw [hb] at hmd
          simp at hmd
      · refine ⟨iff_of_false ?_ (fun hcon => hcon ⟨by trivial, hr.1, hr.2⟩), fun h400 => ?_,
          fun m hm h1 h2 => ⟨?_, ?_⟩, fun hb => ?_⟩
        · intro h400
          revert h400
          (repeat' split) <;> simp_all
        · exfalso
          revert h400
          (repeat' split) <;> simp_all
        · (repeat' split) <;> simp_all
        · (repeat' split) <;> simp_all
        · rw [hb] at hmd
          simp at hmd
      · have hval := hrt ty tys hrel
        simp only [Option.getD_some, if_true, hval, Bool.not_true, Bool.false_eq_true, if_false]
        refine ⟨iff_of_false ?_ (fun hcon => hcon ⟨by trivial, hr.1, hr.2⟩), fun h400 => ?_,
          fun m hm h1 h2 => ⟨?_, ?_⟩, fun hb => ?_⟩
        · intro h400
          revert h400
          (repeat' split) <;> simp_all
        · exfalso
          revert h400
          (repeat' split) <;> simp_all
        · (repeat' split) <;> simp_all
        · (repeat' split) <;> simp_all
        · rw [hb] at hmd
          simp at hmd
    · -- out-of-range integer: rejected by the guard
      have hg : (decide (n < 1) || decide (n > 15)) = true := by
        rcases not_and_or.mp hr with h | h
        · have hlt : n < 1 := by omega
          simp [hlt]
        · have hgt : n > 15 := by omega
          simp [hgt]
      simp only [pyIsInstInt, pyIntVal, Bool.not_true, Bool.false_or, hg, if_true]
      refine ⟨iff_of_true (by trivial) ?_, fun _ => ⟨by trivial, by trivial⟩, ?_, ?_⟩
      · intro hcon
        exact hr ⟨hcon.2.1, hcon.2.2⟩
      · intro m hm h1 h2
        injection hm with hm
        subst hm
        exact absurd ⟨h1, h2⟩ hr
      · intro hb
        rw [hb] at hmd
        simp at hmd
  · -- string: not an int instance, rejected by the guard
    refine ⟨by simp [pyIsInstInt], by simp [pyIsInstInt], ?_, ?_⟩
    · intro m hm h1 h2
      exact absurd hm (by simp)
    · intro hb
      rw [hb] at hmd
      simp at hmd

/-- C2 witness: `max_depth = 0` with both endpoints present and no
relationship types is rejected with 400 before any backend statement. -/
theorem C2_find_path_depth_guard_witness :
    (find_path sampleGraph (some { from_node := some "a", to_node := some "b", max_depth := some (.jint 0) })).status = 400 ∧
    (find_path sampleGraph (some { from_node := some "a", to_node := some "b", max_depth := some (.jint 0) })).executed = [] := by
  have h := C2_find_path_depth_guard sampleGraph
    { from_node := some "a", to_node := some "b", max_depth := some (.jint 0) }
    "a" "b" rfl (by decide) rfl (by decide) (fun ty tys hrel => Option.noConfusion hrel)
  have h400 := h.1.mpr (by decide)
  exact ⟨h400, (h.2.1 h400).1⟩

/-- C8: in every operation that splices a label or relationship type
into statement text — node creation, label lookup, relationship
creation, type lookup, node-relationship traversal and path finding —
a 400 response (missing fields, empty label list, or failed identifier
validation) is produced before any backend statement is sent: the
executed-statement list is empty and the graph is unchanged. -/
theorem C8_validation_before_backend :
    (∀ g data exc, (create_node g data exc).status = 400 →
      (create_node g data exc).executed = [] ∧ (create_node g data exc).graph = g) ∧
    (∀ g label, (get_nodes_by_label g label).status = 400 →
      (get_nodes_by_label g label).executed = [] ∧ (get_nodes_by_label g label).graph = g) ∧
    (∀ g data exc, (create_relationship g data exc).status = 400 →
      (create_relationship g data exc).executed = [] ∧
      (create_relationship g data exc).graph = g) ∧
    (∀ g rel_type, (get_relationships_by_type g rel_type).status = 400 →
      (get_relationships_by_type g rel_type).executed = [] ∧
      (get_relationships_by_type g rel_type).graph = g) ∧
    (∀ g node_id direction rel_type,
      (get_node_relationships g node_id direction rel_type).status = 400 →
      (get_node_relationships g node_id direction rel_type).executed = [] ∧
      (get_node_relationships g node_id direction rel_type).graph = g) ∧
    (∀ g data, (find_path g data).status = 400 →
      (find_path g data).executed = [] ∧ (find_path g data).graph = g) := by
  refine ⟨?_, ?_, ?_, ?_, ?_, ?_⟩
  · intro g data exc
    simp only [create_node]
    (repeat' split) <;> simp_all
  · intro g label
    simp only [get_nodes_by_label]
    (repeat' split) <;> simp_all
  · intro g data exc
    simp only [create_relationship]
    (repeat' split) <;> simp_all
  · intro g rel_type
    simp only [get_relationships_by_type]
    (repeat' split) <;> simp_all
  · intro g node_id direction rel_type
    simp only [get_node_relationships]
    (repeat' split) <;> simp_all
  · intro g data
    simp only [find_path]
    (repeat' split) <;> simp_all

/-- C8 witness: creating a node with the invalid label `"bad label"`
returns 400 having sent no statement and leaving the sample graph
unchanged. -/
theorem C8_validation_before_backend_witness :
    (create_node sampleGraph (some { labels := ["bad label"] }) none).executed = [] ∧
    (create_node sampleGraph (some { labels := ["bad label"] }) none).graph = sampleGraph :=
  C8_validation_before_backend.1 sampleGraph (some { labels := ["bad label"] }) none (by decide)

end DBService
